import Mathlib

/-
  Verification development for dwave-system
  (src/dwave/system/samplers/leap_hybrid_sampler.py).

  The file shallowly embeds the two adapter classes, LeapHybridSampler and
  LeapHybridDQMSampler, and the small amount of external behaviour they
  depend on.  Numeric quantities (time limits, interpolation) are modelled
  with rationals; the remote cloud solver is modelled as an oracle record of
  pure functions, and each sampling entry point additionally returns the
  list of remote calls it performed, so that claims of the form
  "raises before any remote call" become statements about that trace.
-/

set_option maxHeartbeats 1000000

/-- Variable labels as they appear in sample sets: either an integer index
(as returned by the remote solver for an unlabelled submission) or a
caller-facing name. -/
inductive Lbl where
  | idx (n : Nat)
  | name (s : String)
  deriving DecidableEq, Repr

/-- A dimod sample set, reduced to the features the adapter code touches:
the ordered list of variable labels and the records (assignment, energy,
num_occurrences). -/
structure SampleSet where
  vars : List Lbl
  records : List (List Int × Rat × Nat)
  deriving DecidableEq, Repr

/-- Embeds dimod SampleSet.relabel_variables: the relabelling map is applied
to every variable label; labels outside the mapping are kept, which the
total function argument realises by acting as the identity there. -/
def SampleSet.relabel_variables (ss : SampleSet) (m : Lbl → Lbl) : SampleSet :=
  { ss with vars := ss.vars.map m }

/-- A serialized BQM as produced by FileView: either the labelled form or,
with ignore_labels=True, the unlabelled integer-indexed form, of which only
the variable count is observable. -/
inductive BQMPayload where
  | labelled (vars : List String)
  | unlabelled (numVars : Nat)
  deriving DecidableEq, Repr

/-- A serialized DQM as produced by DQM.to_file(compressed, ignore_labels=True):
labels are always stripped, so only the size data and the compression flag
remain observable. -/
structure DQMPayload where
  numVars : Nat
  numInteractions : Nat
  numCases : Nat
  compressed : Bool
  deriving DecidableEq, Repr

/-- Extra keyword options forwarded to the solver, modelled as an
association list of opaque key/value strings. -/
def KWargs : Type := List (String × String)

instance : DecidableEq KWargs := by
  unfold KWargs
  infer_instance

/-- The possible shapes of the time_limit argument: Python None, a numeric
value, or a non-numeric object (e.g. a string), which is what the
isinstance(time_limit, Number) check in LeapHybridSampler.sample rejects. -/
inductive TimeLimitArg where
  | none
  | num (t : Rat)
  | nonNumeric (repr : String)
  deriving DecidableEq, Repr

/-- The local errors raised by the adapter code (Python TypeError and
ValueError, with the message retained). -/
inductive SampleError where
  | typeError (msg : String)
  | valueError (msg : String)
  deriving DecidableEq, Repr

/-- One remote interaction performed by an adapter: a BQM upload, a
sample_bqm call (problem id, time limit, extra keyword options), or a
single-step sample_dqm call (payload and the time limit value actually
passed through, which for the DQM path is never locally validated and so
may be any TimeLimitArg). -/
inductive RemoteCall where
  | upload_bqm (payload : BQMPayload)
  | sample_bqm (problemId : Nat) (time_limit : Rat) (kwargs : KWargs)
  | sample_dqm (payload : DQMPayload) (time_limit : TimeLimitArg)
  deriving DecidableEq

/-- The properties mapping of a resolved solver, reduced to the keys the
adapter code reads: properties.get("category"), properties["parameters"]
(its key list), and properties["minimum_time_limit"] (the piecewise-linear
curve as (size, seconds) pairs). -/
structure SolverProps where
  category : Option String
  parameters : List String
  minimum_time_limit : List (Rat × Rat)

/-- A resolved remote solver handle together with the oracle functions
describing how the remote service answers the calls the adapter makes.
upload_bqm returns a problem id; sample_bqm and sample_dqm return the
sample set carried by the resolved future. -/
structure Solver where
  properties : SolverProps
  supported_problem_types : List String
  upload_bqm : BQMPayload → Nat
  sample_bqm : Nat → Rat → KWargs → SampleSet
  sample_dqm : DQMPayload → TimeLimitArg → SampleSet

/-- Modelled from the external dependency numpy.interp (one-dimensional
piecewise linear interpolation), used at leap_hybrid_sampler.py lines 189
and 419: values below the first sample point clamp to its ordinate, values
above the last clamp to its ordinate, and values between two consecutive
sample points interpolate linearly.  numpy raises on an empty list; the
empty case here returns 0 and is never relied upon.  Rationals stand in
for IEEE floats. -/
def interp (x : Rat) : List (Rat × Rat) → Rat
  | [] => 0
  | [p] => p.2
  | p :: q :: rest =>
      if x ≤ p.1 then p.2
      else if x ≤ q.1 then p.2 + (q.2 - p.2) * (x - p.1) / (q.1 - p.1)
      else interp x (q :: rest)

/-- A binary quadratic model, reduced to what the adapter reads: the
ordered variable labels (iter_variables order). -/
structure BQM where
  vars : List String

/-- Embeds bqm.num_variables. -/
def BQM.num_variables (b : BQM) : Nat := b.vars.length

namespace LeapHybridSampler

/-- Embeds LeapHybridSampler._INTEGER_BQM_SIZE_THRESHOLD = 10000. -/
def SIZE_THRESHOLD : Nat := 10000

/-- Embeds the computation at lines 187-189 of sample: the minimum time
limit is numpy.interp of the variable count over
properties["minimum_time_limit"]. -/
def minTimeLimit (S : Solver) (bqm : BQM) : Rat :=
  interp (bqm.num_variables : Rat) S.properties.minimum_time_limit

/-- Embeds LeapHybridSampler._sample: serialize the labelled FileView,
upload it, then sample against the returned problem id; the sample set is
returned unchanged.  The second component is the trace of remote calls. -/
def sampleSmall (S : Solver) (bqm : BQM) (t : Rat) (kwargs : KWargs) :
    SampleSet × List RemoteCall :=
  let fv := BQMPayload.labelled bqm.vars
  let sapi_problem_id := S.upload_bqm fv
  let ss := S.sample_bqm sapi_problem_id t kwargs
  (ss, [RemoteCall.upload_bqm fv, RemoteCall.sample_bqm sapi_problem_id t kwargs])

/-- Embeds LeapHybridSampler._sample_large: serialize with
ignore_labels=True, upload, sample, then relabel the returned sample set by
mapping = dict(enumerate(bqm.iter_variables())), i.e. integer index i goes
to the i-th variable label; indices outside the range are untouched. -/
def sampleLarge (S : Solver) (bqm : BQM) (t : Rat) (kwargs : KWargs) :
    SampleSet × List RemoteCall :=
  let fv := BQMPayload.unlabelled bqm.num_variables
  let sapi_problem_id := S.upload_bqm fv
  let ss := S.sample_bqm sapi_problem_id t kwargs
  let mapping : Lbl → Lbl := fun l =>
    match l with
    | Lbl.idx i =>
        match bqm.vars[i]? with
        | some v => Lbl.name v
        | none => Lbl.idx i
    | l => l
  (ss.relabel_variables mapping,
   [RemoteCall.upload_bqm fv, RemoteCall.sample_bqm sapi_problem_id t kwargs])

/-- Embeds LeapHybridSampler.sample (lines 187-207): compute the
interpolated minimum, default a None time_limit to it, reject a
non-numeric time_limit with TypeError and a numeric one below the minimum
with ValueError (in both cases before any remote call, hence the empty
trace), and otherwise dispatch to the large (unlabelled) path when the
variable count strictly exceeds the threshold, else the labelled path. -/
def sample (S : Solver) (bqm : BQM) (time_limit : TimeLimitArg) (kwargs : KWargs) :
    Except SampleError SampleSet × List RemoteCall :=
  let num_vars := bqm.num_variables
  let min_time_limit := minTimeLimit S bqm
  let tl : TimeLimitArg :=
    match time_limit with
    | TimeLimitArg.none => TimeLimitArg.num min_time_limit
    | t => t
  match tl with
  | TimeLimitArg.num t =>
      if t < min_time_limit then
        (Except.error (SampleError.valueError "time limit for problem size must be at least the interpolated minimum"), [])
      else if num_vars > SIZE_THRESHOLD then
        let r := sampleLarge S bqm t kwargs
        (Except.ok r.1, r.2)
      else
        let r := sampleSmall S bqm t kwargs
        (Except.ok r.1, r.2)
  | _ =>
      (Except.error (SampleError.typeError "time limit must be a number"), [])

end LeapHybridSampler

/-- A discrete quadratic model, reduced to what the adapter reads: the
ordered variable labels, the number of pairwise variable interactions and
the total number of cases. -/
structure DQM where
  vars : List String
  interactions : Nat
  cases_total : Nat

/-- Embeds dqm.num_variables(). -/
def DQM.num_variables (d : DQM) : Nat := d.vars.length

/-- Embeds dqm.num_variable_interactions(). -/
def DQM.num_variable_interactions (d : DQM) : Nat := d.interactions

/-- Embeds dqm.num_cases(). -/
def DQM.num_cases (d : DQM) : Nat := d.cases_total

/-- Embeds dqm.to_file(compressed=compressed, ignore_labels=True)._file as
called at line 410: labels are stripped unconditionally at this call site. -/
def DQM.to_file (d : DQM) (compressed : Bool) : DQMPayload :=
  { numVars := d.num_variables
    numInteractions := d.num_variable_interactions
    numCases := d.num_cases
    compressed := compressed }

namespace LeapHybridDQMSampler

/-- Embeds LeapHybridDQMSampler.min_time_limit (lines 414-420): the density
metric ec = num_variable_interactions() * num_cases() / num_variables() is
interpolated over properties["minimum_time_limit"] and the result floored
at 5. -/
def min_time_limit (S : Solver) (dqm : DQM) : Rat :=
  let ec : Rat := ((dqm.num_variable_interactions * dqm.num_cases : Nat) : Rat)
      / (dqm.num_variables : Rat)
  let t := interp ec S.properties.minimum_time_limit
  max 5 t

/-- Embeds LeapHybridDQMSampler.sample_dqm (lines 402-412): a None
time_limit defaults to min_time_limit; no other local validation is
performed (the body contains no isinstance or minimum check), the stripped
payload is submitted in a single sample_dqm call carrying only the payload
and the time limit (the extra keyword options are accepted but never
forwarded), and the returned sample set is relabelled by
dict(enumerate(dqm.vars)). -/
def sample_dqm (S : Solver) (dqm : DQM) (time_limit : TimeLimitArg)
    (compressed : Bool) (kwargs : KWargs) : SampleSet × List RemoteCall :=
  let tl : TimeLimitArg :=
    match time_limit with
    | TimeLimitArg.none => TimeLimitArg.num (min_time_limit S dqm)
    | t => t
  let f := dqm.to_file compressed
  let sampleset := S.sample_dqm f tl
  let mapping : Lbl → Lbl := fun l =>
    match l with
    | Lbl.idx i =>
        match dqm.vars[i]? with
        | some v => Lbl.name v
        | none => Lbl.idx i
    | l => l
  (sampleset.relabel_variables mapping, [RemoteCall.sample_dqm f tl])

end LeapHybridDQMSampler

/-- An association list standing in for a Python dict of solver-filter
keys (insertion-ordered, first binding wins on lookup, as for a dict in
which each key occurs at most once). -/
def FilterMap : Type := List (String × String)

/-- Lookup in a filter mapping (dict membership and access). -/
def lookupS (k : String) : List (String × String) → Option String
  | [] => none
  | (k2, v) :: rest => if k2 = k then some v else lookupS k rest

/-- Embeds dict.setdefault(k, v): returns the stored value if k is
present, otherwise inserts (k, v) at the end (dicts are insertion
ordered) and returns v; the second component is the dict after the call. -/
def setdefault (m : List (String × String)) (k v : String) :
    String × List (String × String) :=
  match lookupS k m with
  | some w => (w, m)
  | none => (v, m ++ [(k, v)])

/-- Embeds the filter-mapping branch shared by both constructors
(lines 82-90 and 307-315 with kind = "bqm" or "dqm"): setdefault the
category to hybrid and fail if the stored value differs, then setdefault
the supported problem type to kind and fail if it differs, then setdefault
the ordering; alongside the outcome it returns the state of the
caller-owned mapping at the moment the constructor returns or raises,
since the setdefault calls mutate that mapping in place. -/
def applyFilterDefaults (kind : String) (m : FilterMap) :
    Except SampleError Unit × FilterMap :=
  let c := setdefault m "category" "hybrid"
  if c.1 ≠ "hybrid" then
    (Except.error (SampleError.valueError "the only category this sampler supports is hybrid"), c.2)
  else
    let p := setdefault c.2 "supported_problem_types__contains" kind
    if p.1 ≠ kind then
      (Except.error (SampleError.valueError ("the only problem type this sampler supports is " ++ kind)), p.2)
    else
      let o := setdefault p.2 "order_by" "-version"
      (Except.ok (), o.2)

/-- Embeds the post-resolution checks (lines 98-101 and 323-326): the
resolved solver must have category hybrid in its properties and must list
kind among its supported problem types. -/
def validateResolved (kind : String) (r : Solver) : Except SampleError Solver :=
  if r.properties.category ≠ some "hybrid" then
    Except.error (SampleError.valueError "selected solver is not a hybrid solver")
  else if kind ∉ r.supported_problem_types then
    Except.error (SampleError.valueError ("selected solver does not support the " ++ kind ++ " problem type"))
  else
    Except.ok r

/-- The solver argument accepted by the constructors: Python None, a
filter mapping, or an already-named solver (any non-mapping value, of
which only the fact that the mapping branch is skipped matters). -/
inductive SolverArg where
  | noSolver
  | filter (m : FilterMap)
  | named (s : String)

/-- Embeds the shared body of LeapHybridSampler.__init__ (lines 74-101)
and LeapHybridDQMSampler.__init__ (lines 299-326), which are identical up
to the problem-type literal kind.  The resolution performed by
Client.from_config and client.get_solver is external; the resolved
parameter is the solver handle that resolution produces.  The result
pairs the construction outcome with the final contents of the
caller-owned filter mapping when one was passed (None when the caller
passed no mapping: the None case builds a fresh empty dict the caller
never sees). -/
def samplerInit (kind : String) (solver : SolverArg) (resolved : Solver) :
    Except SampleError Solver × Option FilterMap :=
  match solver with
  | SolverArg.named _ => (validateResolved kind resolved, none)
  | SolverArg.noSolver =>
      match (applyFilterDefaults kind []).1 with
      | Except.error e => (Except.error e, none)
      | Except.ok _ => (validateResolved kind resolved, none)
  | SolverArg.filter m =>
      let r := applyFilterDefaults kind m
      match r.1 with
      | Except.error e => (Except.error e, some r.2)
      | Except.ok _ => (validateResolved kind resolved, some r.2)

/-- The BQM adapter constructor: kind is bqm. -/
def LeapHybridSampler.initState (solver : SolverArg) (resolved : Solver) :
    Except SampleError Solver × Option FilterMap :=
  samplerInit "bqm" solver resolved

/-- The DQM adapter constructor: kind is dqm. -/
def LeapHybridDQMSampler.initState (solver : SolverArg) (resolved : Solver) :
    Except SampleError Solver × Option FilterMap :=
  samplerInit "dqm" solver resolved

/-- The caller-supplied filter values that pass the two conflict checks:
category absent or hybrid, problem type absent or equal to kind. -/
def filterOk (kind : String) (m : FilterMap) : Prop :=
  (lookupS "category" m = none ∨ lookupS "category" m = some "hybrid") ∧
  (lookupS "supported_problem_types__contains" m = none ∨
   lookupS "supported_problem_types__contains" m = some kind)

instance (kind : String) (m : FilterMap) : Decidable (filterOk kind m) := by
  unfold filterOk
  infer_instance

/-- The parameters mapping built at lines 128-129 and 357-358: each
keyword in properties["parameters"] maps to the provenance list
["parameters"]. -/
def paramsFrom (props : SolverProps) : List (String × List String) :=
  props.parameters.map (fun param => (param, ["parameters"]))

/-- The mutable per-instance state behind the two cached read-only
attributes: the bound solver plus the optional caches corresponding to
the instance attributes self._properties and self._parameters, which are
absent until first use (the try/except AttributeError pattern). -/
structure AdapterState where
  solver : Solver
  propsCache : Option SolverProps
  paramsCache : Option (List (String × List String))

/-- The observable outcome of one attribute access: the value returned,
the instance state afterwards, and whether the access consulted the bound
solver (read self.solver.properties). -/
structure Access (A : Type) where
  value : A
  state : AdapterState
  fetched : Bool

/-- Embeds the properties getter (lines 103-114 and 330-341): return the
cached mapping if present, else fetch self.solver.properties (the copy
taken by the source is a fresh mapping with the same contents), store it
and return it. -/
def AdapterState.getProperties (s : AdapterState) : Access SolverProps :=
  match s.propsCache with
  | some p => ⟨p, s, false⟩
  | none =>
      ⟨s.solver.properties, { s with propsCache := some s.solver.properties }, true⟩

/-- Embeds the parameters getter (lines 116-131 and 343-360): return the
cached mapping if present, else build it from the properties attribute
(which may itself fetch and fill the properties cache), store it and
return it. -/
def AdapterState.getParameters (s : AdapterState) :
    Access (List (String × List String)) :=
  match s.paramsCache with
  | some q => ⟨q, s, false⟩
  | none =>
      let a := s.getProperties
      let params := paramsFrom a.value
      ⟨params, { a.state with paramsCache := some params }, a.fetched⟩

/-- The time limits carried by the sample_bqm calls of a trace. -/
def bqmTimes : List RemoteCall → List Rat
  | [] => []
  | RemoteCall.sample_bqm _ t _ :: rest => t :: bqmTimes rest
  | _ :: rest => bqmTimes rest

/-- The time limits carried by the sample_dqm calls of a trace. -/
def dqmTimes : List RemoteCall → List TimeLimitArg
  | [] => []
  | RemoteCall.sample_dqm _ t :: rest => t :: dqmTimes rest
  | _ :: rest => dqmTimes rest

/-
  Concrete fixtures used by the witness theorems: a trivial sample set, the
  documentation curve [[1, 0.1], [100, 10.0], [1000, 20.0]], and small
  solvers and models built from them.
-/

/-- An empty sample set returned by trivial remote oracles. -/
def sampleSet0 : SampleSet := ⟨[], []⟩

/-- The minimum-time curve used as the running example in the source
docstrings: [[1, 0.1], [100, 10.0], [1000, 20.0]]. -/
def curve0 : List (Rat × Rat) := [(1, 1/10), (100, 10), (1000, 20)]

/-- Properties of a well-formed hybrid solver exposing curve0. -/
def props0 : SolverProps :=
  { category := some "hybrid"
    parameters := ["time_limit"]
    minimum_time_limit := curve0 }

/-- A well-formed hybrid solver whose remote oracles return the empty
sample set. -/
def solver0 : Solver :=
  { properties := props0
    supported_problem_types := ["bqm", "dqm"]
    upload_bqm := fun _ => 7
    sample_bqm := fun _ _ _ => sampleSet0
    sample_dqm := fun _ _ => sampleSet0 }

/-- A 50-variable BQM, the running example of the source docstring. -/
def bqm50 : BQM := ⟨List.replicate 50 "v"⟩

/-- The label list of the large-model fixture: 10001 variables. -/
def largeVars : List String := List.replicate 10001 "x"

/-- A BQM one variable above the integer-serialization threshold. -/
def bqmLarge : BQM := ⟨largeVars⟩

/-- A hybrid solver whose sample_bqm oracle returns the integer-indexed
sample set a hybrid solver produces for an unlabelled 10001-variable
problem. -/
def solverLarge : Solver :=
  { properties := props0
    supported_problem_types := ["bqm"]
    upload_bqm := fun _ => 7
    sample_bqm := fun _ _ _ => ⟨(List.range 10001).map Lbl.idx, []⟩
    sample_dqm := fun _ _ => sampleSet0 }

/-- The DQM of the spec example: 3 variables, 10 pairwise interactions,
6 total cases, so density 10 * 6 / 3 = 20. -/
def dqm0 : DQM := ⟨["a", "b", "c"], 10, 6⟩

/-- A fresh adapter state bound to solver0 with both caches empty. -/
def adapter0 : AdapterState := ⟨solver0, none, none⟩

/-
  Helper lemmas about interp (the numpy.interp model).
-/

/-- Clamping at the left endpoint: at or below the first sample point the
interpolant is the first ordinate.  No ordering hypothesis is needed. -/
theorem interp_clamp_head (x : Rat) (c : List (Rat × Rat)) (hne : c ≠ [])
    (h : x ≤ (c.head hne).1) : interp x c = (c.head hne).2 := by
  cases c with
  | nil => exact absurd rfl hne
  | cons p t =>
      cases t with
      | nil => simp [interp]
      | cons q rest =>
          simp only [List.head_cons] at h ⊢
          simp only [interp]
          rw [if_pos h]

/-- Clamping at the right endpoint: for a strictly increasing curve, at or
above the last sample point the interpolant is the last ordinate. -/
theorem interp_clamp_last (x : Rat) :
    ∀ (c : List (Rat × Rat)) (hne : c ≠ []),
      List.Pairwise (fun p q => p.1 < q.1) c →
      (c.getLast hne).1 ≤ x → interp x c = (c.getLast hne).2
  | [p], _, _, _ => by simp [interp]
  | p :: q :: rest, hne, hp, hx => by
      have hqr : (q :: rest) ≠ [] := by simp
      have hlast : (p :: q :: rest).getLast hne = (q :: rest).getLast hqr :=
        List.getLast_cons hqr
      rcases List.pairwise_cons.1 hp with ⟨hpall, hp2⟩
      have hpl : p.1 < ((q :: rest).getLast hqr).1 :=
        hpall _ (List.getLast_mem hqr)
      rw [hlast] at hx ⊢
      have hnxp : ¬ x ≤ p.1 := not_le.2 (lt_of_lt_of_le hpl hx)
      simp only [interp]
      rw [if_neg hnxp]
      cases rest with
      | nil =>
          have hql : ([q] : List (Rat × Rat)).getLast (by simp) = q := rfl
          rw [hql] at hx ⊢
          by_cases hxq : x ≤ q.1
          · have hxe : x = q.1 := le_antisymm hxq hx
            have hpq : p.1 < q.1 := hpall q (by simp)
            have hd : q.1 - p.1 ≠ 0 := sub_ne_zero.2 (ne_of_gt hpq)
            rw [if_pos hxq, hxe, mul_div_assoc, div_self hd, mul_one]
            ring
          · rw [if_neg hxq]
            simp [interp]
      | cons r rest2 =>
          have hqr2 : (r :: rest2) ≠ [] := by simp
          have hlast2 : (q :: r :: rest2).getLast hqr = (r :: rest2).getLast hqr2 :=
            List.getLast_cons hqr2
          have hql : q.1 < ((r :: rest2).getLast hqr2).1 :=
            (List.pairwise_cons.1 hp2).1 _ (List.getLast_mem hqr2)
          rw [hlast2] at hx
          have hnxq : ¬ x ≤ q.1 := not_le.2 (lt_of_lt_of_le hql hx)
          rw [if_neg hnxq]
          rw [← hlast2] at hx
          exact interp_clamp_last x (q :: r :: rest2) hqr hp2 hx

/-- Linear interpolation between two consecutive sample points of a
strictly increasing curve. -/
theorem interp_segment (x : Rat) (p q : Rat × Rat) :
    ∀ (l1 l2 : List (Rat × Rat)),
      List.Pairwise (fun a b => a.1 < b.1) (l1 ++ p :: q :: l2) →
      p.1 ≤ x → x ≤ q.1 →
      interp x (l1 ++ p :: q :: l2) =
        p.2 + (q.2 - p.2) * (x - p.1) / (q.1 - p.1) := by
  intro l1
  induction l1 with
  | nil =>
      intro l2 hp hpx hxq
      simp only [List.nil_append]
      simp only [List.nil_append] at hp
      by_cases hxp : x ≤ p.1
      · have hxe : x = p.1 := le_antisymm hxp hpx
        simp only [interp]
        rw [if_pos hxp, hxe]
        simp
      · simp only [interp]
        rw [if_neg hxp, if_pos hxq]
  | cons a l1x ih =>
      intro l2 hp hpx hxq
      rcases List.pairwise_cons.1 hp with ⟨ha, hp2⟩
      have hap : a.1 < p.1 := ha p (by simp)
      have hnxa : ¬ x ≤ a.1 := not_le.2 (lt_of_lt_of_le hap hpx)
      cases l1x with
      | nil =>
          simp only [List.nil_append] at hp2 ih ⊢
          simp only [List.cons_append, List.nil_append]
          simp only [interp]
          rw [if_neg hnxa]
          by_cases hxp : x ≤ p.1
          · have hxe : x = p.1 := le_antisymm hxp hpx
            have hd : p.1 - a.1 ≠ 0 := sub_ne_zero.2 (ne_of_gt hap)
            have hpq : p.1 < q.1 := (List.pairwise_cons.1 hp2).1 q (by simp)
            rw [if_pos hxp, hxe, mul_div_assoc, div_self hd, mul_one]
            simp
          · rw [if_neg hxp]
            exact ih l2 hp2 hpx hxq
      | cons b l1y =>
          have hbp : b.1 < p.1 :=
            (List.pairwise_cons.1 hp2).1 p (by simp)
          have hnxb : ¬ x ≤ b.1 := not_le.2 (lt_of_lt_of_le hbp hpx)
          simp only [List.cons_append]
          simp only [interp]
          rw [if_neg hnxa, if_neg hnxb]
          have := ih l2 hp2 hpx hxq
          simpa [List.cons_append] using this

/-
  Helper lemmas about lookupS and setdefault (the dict model).
-/

/-- Lookup distributes over append: the left part wins when it binds the
key. -/
theorem lookupS_append (k : String) (m l : List (String × String)) :
    lookupS k (m ++ l) =
      match lookupS k m with
      | some v => some v
      | none => lookupS k l := by
  induction m with
  | nil => simp [lookupS]
  | cons a m ih =>
      by_cases h : a.1 = k
      · simp [lookupS, h]
      · simp only [List.cons_append, lookupS, if_neg h]
        exact ih

/-- After setdefault m k v, the key k binds the previous value if present
and v otherwise. -/
theorem lookupS_setdefault_same (m : List (String × String)) (k v : String) :
    lookupS k (setdefault m k v).2 = some ((lookupS k m).getD v) := by
  unfold setdefault
  cases h : lookupS k m with
  | some w => simp [h]
  | none => simp [h, lookupS_append, lookupS]

/-- setdefault m k v does not change the binding of any other key. -/
theorem lookupS_setdefault_other (m : List (String × String)) (k v k2 : String)
    (hne : k ≠ k2) : lookupS k2 (setdefault m k v).2 = lookupS k2 m := by
  unfold setdefault
  cases h : lookupS k m with
  | some w => simp
  | none =>
      simp only [lookupS_append, lookupS, if_neg hne]
      cases lookupS k2 m <;> simp

/-- The trace of the relabelling applied by the large-BQM path: when the
remote sample set is labelled by the integer indices 0..n-1 in order, the
relabelled label list is exactly the models label list. -/
theorem relabel_range_map (vs : List String) :
    ((List.range vs.length).map Lbl.idx).map (fun l =>
      match l with
      | Lbl.idx i =>
          match vs[i]? with
          | some v => Lbl.name v
          | none => Lbl.idx i
      | l => l) = vs.map Lbl.name := by
  rw [List.map_map]
  apply List.ext_getElem
  · simp
  · intro n h1 h2
    simp only [List.getElem_map, List.getElem_range, Function.comp]
    have hn : n < vs.length := by simpa using h2
    simp [List.getElem?_eq_getElem hn]

/-- The value returned by setdefault: the stored one when present, the
default otherwise. -/
theorem setdefault_fst (m : List (String × String)) (k v : String) :
    (setdefault m k v).1 = (lookupS k m).getD v := by
  unfold setdefault
  cases h : lookupS k m <;> simp [h]

/-- A caller-supplied category different from hybrid makes the filter
branch fail immediately, before the problem-type and order_by setdefault
calls, so the mapping is returned exactly as the caller supplied it. -/
theorem applyFilterDefaults_bad_category (kind : String) (m : FilterMap)
    (c : String) (h : lookupS "category" m = some c) (hc : c ≠ "hybrid") :
    applyFilterDefaults kind m =
      (Except.error (SampleError.valueError "the only category this sampler supports is hybrid"), m) := by
  unfold applyFilterDefaults setdefault
  simp [h, hc]

/-- With the category check passed, a caller-supplied problem type
different from kind makes the filter branch fail. -/
theorem applyFilterDefaults_bad_pt (kind : String) (m : FilterMap) (p2 : String)
    (hcat : lookupS "category" m = none ∨ lookupS "category" m = some "hybrid")
    (h : lookupS "supported_problem_types__contains" m = some p2)
    (hp : p2 ≠ kind) :
    (applyFilterDefaults kind m).1 =
      Except.error (SampleError.valueError
        ("the only problem type this sampler supports is " ++ kind)) := by
  have h1 : (setdefault m "category" "hybrid").1 = "hybrid" := by
    rw [setdefault_fst]
    rcases hcat with h0 | h0 <;> simp [h0]
  have h2 : (setdefault (setdefault m "category" "hybrid").2
      "supported_problem_types__contains" kind).1 = p2 := by
    rw [setdefault_fst, lookupS_setdefault_other _ _ _ _ (by decide), h]
    rfl
  unfold applyFilterDefaults
  simp [h1, h2, hp]

/-- When neither conflict check fires the filter branch succeeds, and the
final mapping binds each of the three injected keys to the caller value
when one was supplied and to the default otherwise. -/
theorem applyFilterDefaults_ok (kind : String) (m : FilterMap)
    (hok : filterOk kind m) :
    (applyFilterDefaults kind m).1 = Except.ok () ∧
    lookupS "category" (applyFilterDefaults kind m).2 =
      some ((lookupS "category" m).getD "hybrid") ∧
    lookupS "supported_problem_types__contains" (applyFilterDefaults kind m).2 =
      some ((lookupS "supported_problem_types__contains" m).getD kind) ∧
    lookupS "order_by" (applyFilterDefaults kind m).2 =
      some ((lookupS "order_by" m).getD "-version") := by
  obtain ⟨hc, hp⟩ := hok
  have h1 : (setdefault m "category" "hybrid").1 = "hybrid" := by
    rw [setdefault_fst]
    rcases hc with h0 | h0 <;> simp [h0]
  have h2 : (setdefault (setdefault m "category" "hybrid").2
      "supported_problem_types__contains" kind).1 = kind := by
    rw [setdefault_fst, lookupS_setdefault_other _ _ _ _ (by decide)]
    rcases hp with h0 | h0 <;> simp [h0]
  unfold applyFilterDefaults
  simp only [h1, h2, ne_eq, not_true_eq_false, if_false]
  refine ⟨by simp, ?_, ?_, ?_⟩
  · rw [lookupS_setdefault_other _ _ _ _ (by decide),
        lookupS_setdefault_other _ _ _ _ (by decide),
        lookupS_setdefault_same]
  · rw [lookupS_setdefault_other _ _ _ _ (by decide),
        lookupS_setdefault_same,
        lookupS_setdefault_other _ _ _ _ (by decide)]
  · rw [lookupS_setdefault_same,
        lookupS_setdefault_other _ _ _ _ (by decide),
        lookupS_setdefault_other _ _ _ _ (by decide)]

/-- The post-resolution validation succeeds exactly for a hybrid solver
supporting the adapters problem type. -/
theorem validateResolved_ok_iff (kind : String) (r : Solver) :
    validateResolved kind r = Except.ok r ↔
      (r.properties.category = some "hybrid" ∧
       kind ∈ r.supported_problem_types) := by
  unfold validateResolved
  by_cases h1 : r.properties.category = some "hybrid" <;>
    by_cases h2 : kind ∈ r.supported_problem_types <;> simp [h1, h2]

/-- The post-resolution validation rejects a non-hybrid solver. -/
theorem validateResolved_bad_category (kind : String) (r : Solver)
    (h : r.properties.category ≠ some "hybrid") :
    validateResolved kind r =
      Except.error (SampleError.valueError "selected solver is not a hybrid solver") := by
  simp [validateResolved, h]

/-- The post-resolution validation rejects a solver that does not list the
adapters problem type. -/
theorem validateResolved_bad_pt (kind : String) (r : Solver)
    (h1 : r.properties.category = some "hybrid")
    (h2 : kind ∉ r.supported_problem_types) :
    validateResolved kind r =
      Except.error (SampleError.valueError
        ("selected solver does not support the " ++ kind ++ " problem type")) := by
  simp [validateResolved, h1, h2]

/-- A failing filter branch short-circuits construction with that error,
and the caller-owned mapping is left in the state the failing check left
it in. -/
theorem samplerInit_filter_error (kind : String) (m : FilterMap)
    (resolved : Solver) (e : SampleError)
    (h : (applyFilterDefaults kind m).1 = Except.error e) :
    samplerInit kind (SolverArg.filter m) resolved =
      (Except.error e, some (applyFilterDefaults kind m).2) := by
  simp [samplerInit, h]

/-- A passing filter branch hands over to the post-resolution validation,
with the fully augmented mapping observable to the caller. -/
theorem samplerInit_filter_ok (kind : String) (m : FilterMap)
    (resolved : Solver)
    (h : (applyFilterDefaults kind m).1 = Except.ok ()) :
    samplerInit kind (SolverArg.filter m) resolved =
      (validateResolved kind resolved, some (applyFilterDefaults kind m).2) := by
  simp [samplerInit, h]

/-- Concrete evaluation: the interpolated minimum for 50 variables on the
documentation curve is exactly 5. -/
theorem minTime_solver0_bqm50 : LeapHybridSampler.minTimeLimit solver0 bqm50 = 5 := by
  norm_num [LeapHybridSampler.minTimeLimit, BQM.num_variables, bqm50, solver0,
            props0, curve0, interp]

/-- Concrete evaluation: the DQM minimum for density 20 on the
documentation curve is the floor value 5 (the curve gives 2). -/
theorem minTime_solver0_dqm0 : LeapHybridDQMSampler.min_time_limit solver0 dqm0 = 5 := by
  norm_num [LeapHybridDQMSampler.min_time_limit, DQM.num_variables,
            DQM.num_variable_interactions, DQM.num_cases, dqm0, solver0,
            props0, curve0, interp]

/-- Concrete evaluation: the interpolated minimum for the 10001-variable
model clamps to the last curve ordinate, 20. -/
theorem minTime_solverLarge_bqmLarge :
    LeapHybridSampler.minTimeLimit solverLarge bqmLarge = 20 := by
  norm_num [LeapHybridSampler.minTimeLimit, BQM.num_variables, bqmLarge,
            largeVars, solverLarge, props0, curve0, interp]

/-- Claim C1: for every BQM and caller-supplied time_limit,
LeapHybridSampler.sample raises TypeError on a non-numeric time limit and
ValueError on a numeric one strictly below the interpolated minimum, in
both cases before any remote call (empty trace); a numeric time limit at
or above the minimum raises no local error and the submission carries
exactly that time limit. -/
theorem claim_C1_time_limit_checks (S : Solver) (bqm : BQM) (kwargs : KWargs) :
    (∀ r, LeapHybridSampler.sample S bqm (TimeLimitArg.nonNumeric r) kwargs =
        (Except.error (SampleError.typeError "time limit must be a number"), [])) ∧
    (∀ t : Rat, t < LeapHybridSampler.minTimeLimit S bqm →
        LeapHybridSampler.sample S bqm (TimeLimitArg.num t) kwargs =
          (Except.error (SampleError.valueError
            "time limit for problem size must be at least the interpolated minimum"), [])) ∧
    (∀ t : Rat, LeapHybridSampler.minTimeLimit S bqm ≤ t →
        (∃ ss, (LeapHybridSampler.sample S bqm (TimeLimitArg.num t) kwargs).1 =
          Except.ok ss) ∧
        bqmTimes (LeapHybridSampler.sample S bqm (TimeLimitArg.num t) kwargs).2 = [t]) := by
  refine ⟨fun r => rfl, fun t ht => ?_, fun t ht => ?_⟩
  · unfold LeapHybridSampler.sample
    simp [ht]
  · have hnl : ¬ t < LeapHybridSampler.minTimeLimit S bqm := not_lt.2 ht
    unfold LeapHybridSampler.sample
    by_cases hbig : bqm.num_variables > LeapHybridSampler.SIZE_THRESHOLD <;>
      simp [hnl, hbig, LeapHybridSampler.sampleLarge, LeapHybridSampler.sampleSmall,
            bqmTimes]

/-- Witness for claim C1 at the documentation solver and a 50-variable
model, where the interpolated minimum is 5: a string time limit raises
TypeError, 3 seconds raises ValueError, 7 seconds submits with 7. -/
theorem claim_C1_witness :
    (LeapHybridSampler.sample solver0 bqm50 (TimeLimitArg.nonNumeric "x") [] =
      (Except.error (SampleError.typeError "time limit must be a number"), [])) ∧
    (LeapHybridSampler.sample solver0 bqm50 (TimeLimitArg.num 3) [] =
      (Except.error (SampleError.valueError
        "time limit for problem size must be at least the interpolated minimum"), [])) ∧
    bqmTimes (LeapHybridSampler.sample solver0 bqm50 (TimeLimitArg.num 7) []).2 = [7] := by
  obtain ⟨h1, h2, h3⟩ := claim_C1_time_limit_checks solver0 bqm50 []
  exact ⟨h1 "x", h2 3 (by rw [minTime_solver0_bqm50]; decide),
         (h3 7 (by rw [minTime_solver0_bqm50]; decide)).2⟩

/-- Claim C3: the minimum time limit computed by LeapHybridSampler.sample
is the linear interpolation of the variable count over the solver curve,
clamped to the first ordinate below the first abscissa and to the last
ordinate above the last abscissa; on the documentation curve
[[1, 0.1], [100, 10.0], [1000, 20.0]] a 50-variable problem yields
exactly 5. -/
theorem claim_C3_minimum_interpolation (S : Solver) (bqm : BQM)
    (hne : S.properties.minimum_time_limit ≠ [])
    (hsorted : List.Pairwise (fun p q => p.1 < q.1) S.properties.minimum_time_limit) :
    ((bqm.num_variables : Rat) ≤ (S.properties.minimum_time_limit.head hne).1 →
      LeapHybridSampler.minTimeLimit S bqm =
        (S.properties.minimum_time_limit.head hne).2) ∧
    ((S.properties.minimum_time_limit.getLast hne).1 ≤ (bqm.num_variables : Rat) →
      LeapHybridSampler.minTimeLimit S bqm =
        (S.properties.minimum_time_limit.getLast hne).2) ∧
    (∀ l1 p q l2, S.properties.minimum_time_limit = l1 ++ p :: q :: l2 →
      p.1 ≤ (bqm.num_variables : Rat) → (bqm.num_variables : Rat) ≤ q.1 →
      LeapHybridSampler.minTimeLimit S bqm =
        p.2 + (q.2 - p.2) * ((bqm.num_variables : Rat) - p.1) / (q.1 - p.1)) ∧
    LeapHybridSampler.minTimeLimit solver0 bqm50 = 5 := by
  refine ⟨?_, ?_, ?_, minTime_solver0_bqm50⟩
  · intro h
    exact interp_clamp_head _ _ hne h
  · intro h
    exact interp_clamp_last _ _ hne hsorted h
  · intro l1 p q l2 hdec h1 h2
    unfold LeapHybridSampler.minTimeLimit
    rw [hdec] at hsorted ⊢
    exact interp_segment _ p q l1 l2 hsorted h1 h2

/-- Witness for claim C3: on the documentation curve the 50-variable
minimum is exactly 5. -/
theorem claim_C3_witness : LeapHybridSampler.minTimeLimit solver0 bqm50 = 5 :=
  (claim_C3_minimum_interpolation solver0 bqm50 (by simp [solver0, props0, curve0])
    (by norm_num [solver0, props0, curve0, List.pairwise_cons])).2.2.2

/-- Claim C4: LeapHybridDQMSampler.min_time_limit returns the maximum of 5
and the interpolation of the density metric
interactions times cases over variables; the example
interactions 10, cases 6, variables 3 has density 20, and the result is
always at least 5. -/
theorem claim_C4_dqm_min_time (S : Solver) (dqm : DQM)
    (h : 0 < dqm.num_variables) :
    LeapHybridDQMSampler.min_time_limit S dqm =
      max 5 (interp
        (((dqm.num_variable_interactions * dqm.num_cases : Nat) : Rat) /
          (dqm.num_variables : Rat))
        S.properties.minimum_time_limit) ∧
    5 ≤ LeapHybridDQMSampler.min_time_limit S dqm ∧
    (dqm.num_variable_interactions = 10 → dqm.num_cases = 6 →
      dqm.num_variables = 3 →
      ((dqm.num_variable_interactions * dqm.num_cases : Nat) : Rat) /
        (dqm.num_variables : Rat) = 20) := by
  refine ⟨rfl, le_max_left _ _, ?_⟩
  intro h1 h2 h3
  rw [h1, h2, h3]
  norm_num

/-- Witness for claim C4 at the 3-variable, 10-interaction, 6-case DQM:
the floored minimum is at least 5 (on the documentation curve the
interpolated value at density 20 is 2, so the floor takes effect). -/
theorem claim_C4_witness :
    0 < dqm0.num_variables ∧
    5 ≤ LeapHybridDQMSampler.min_time_limit solver0 dqm0 :=
  ⟨by decide, (claim_C4_dqm_min_time solver0 dqm0 (by decide)).2.1⟩

/-- Claim C6: with time_limit omitted (None), the effective time limit
carried by the remote submission equals the computed minimum: the
interpolated curve value at the variable count for the BQM sampler, and
the floored density interpolation for the DQM sampler. -/
theorem claim_C6_default_time_limit (S : Solver) (bqm : BQM) (dqm : DQM)
    (kwargs : KWargs) (compressed : Bool) :
    bqmTimes (LeapHybridSampler.sample S bqm TimeLimitArg.none kwargs).2 =
      [LeapHybridSampler.minTimeLimit S bqm] ∧
    dqmTimes (LeapHybridDQMSampler.sample_dqm S dqm TimeLimitArg.none
        compressed kwargs).2 =
      [TimeLimitArg.num (LeapHybridDQMSampler.min_time_limit S dqm)] := by
  constructor
  · have hnl : ¬ LeapHybridSampler.minTimeLimit S bqm <
        LeapHybridSampler.minTimeLimit S bqm := lt_irrefl _
    unfold LeapHybridSampler.sample
    by_cases hbig : bqm.num_variables > LeapHybridSampler.SIZE_THRESHOLD <;>
      simp [hnl, hbig, LeapHybridSampler.sampleLarge, LeapHybridSampler.sampleSmall,
            bqmTimes]
  · rfl

/-- Claim C9: extra keyword options passed to sample_dqm are accepted but
never forwarded: the call is identical to one made without them, and the
single remote submission carries only the payload and the time limit. -/
theorem claim_C9_kwargs_dropped (S : Solver) (dqm : DQM) (tl : TimeLimitArg)
    (compressed : Bool) (kwargs : KWargs) :
    LeapHybridDQMSampler.sample_dqm S dqm tl compressed kwargs =
      LeapHybridDQMSampler.sample_dqm S dqm tl compressed [] ∧
    (LeapHybridDQMSampler.sample_dqm S dqm tl compressed kwargs).2.length = 1 :=
  ⟨rfl, rfl⟩

/-- Counterexample to claim C2: at the documentation solver and the
density-20 DQM the computed minimum is 5, yet sample_dqm called with the
below-minimum numeric time limit 1 does not fail with any local input
error: it performs the remote submission, carrying that time limit
unchanged. -/
theorem claim_C2_counterexample :
    (1 : Rat) < LeapHybridDQMSampler.min_time_limit solver0 dqm0 ∧
    (LeapHybridDQMSampler.sample_dqm solver0 dqm0 (TimeLimitArg.num 1)
        false []).2 =
      [RemoteCall.sample_dqm (dqm0.to_file false) (TimeLimitArg.num 1)] :=
  ⟨by rw [minTime_solver0_dqm0]; decide, rfl⟩

/-- Claim C2 as amended: sample_dqm performs no local validation of a
numeric time_limit; a value strictly below the computed minimum is not
rejected locally but passed unchanged to the single remote submission
(any rejection would come from the remote service). -/
theorem claim_C2_no_local_check (S : Solver) (dqm : DQM) (t : Rat)
    (compressed : Bool) (kwargs : KWargs)
    (h : t < LeapHybridDQMSampler.min_time_limit S dqm) :
    (LeapHybridDQMSampler.sample_dqm S dqm (TimeLimitArg.num t)
        compressed kwargs).2 =
      [RemoteCall.sample_dqm (dqm.to_file compressed) (TimeLimitArg.num t)] :=
  rfl

/-- Witness for the amended claim C2 at the concrete below-minimum time
limit 1 with extra keyword options present. -/
theorem claim_C2_witness :
    (1 : Rat) < LeapHybridDQMSampler.min_time_limit solver0 dqm0 ∧
    (LeapHybridDQMSampler.sample_dqm solver0 dqm0 (TimeLimitArg.num 1)
        true [("label", "x")]).2 =
      [RemoteCall.sample_dqm (dqm0.to_file true) (TimeLimitArg.num 1)] :=
  ⟨by rw [minTime_solver0_dqm0]; decide,
   claim_C2_no_local_check solver0 dqm0 1 true [("label", "x")]
     (by rw [minTime_solver0_dqm0]; decide)⟩

/-- Claim C5: with a valid time limit, a model of at most 10000 variables
is serialized in labelled form and the remote sample set is returned
unchanged; a model of more than 10000 variables is serialized unlabelled,
submitted, and the returned sample set is relabelled so that its labels
are exactly the models variable order whenever the remote set is labelled
by the indices 0..n-1 in order. -/
theorem claim_C5_serialization_paths (S : Solver) (bqm : BQM) (t : Rat)
    (kwargs : KWargs)
    (hmin : LeapHybridSampler.minTimeLimit S bqm ≤ t) :
    (bqm.num_variables ≤ LeapHybridSampler.SIZE_THRESHOLD →
      LeapHybridSampler.sample S bqm (TimeLimitArg.num t) kwargs =
        (Except.ok (S.sample_bqm (S.upload_bqm (BQMPayload.labelled bqm.vars))
            t kwargs),
         [RemoteCall.upload_bqm (BQMPayload.labelled bqm.vars),
          RemoteCall.sample_bqm (S.upload_bqm (BQMPayload.labelled bqm.vars))
            t kwargs])) ∧
    (LeapHybridSampler.SIZE_THRESHOLD < bqm.num_variables →
      (LeapHybridSampler.sample S bqm (TimeLimitArg.num t) kwargs).2 =
        [RemoteCall.upload_bqm (BQMPayload.unlabelled bqm.num_variables),
         RemoteCall.sample_bqm
           (S.upload_bqm (BQMPayload.unlabelled bqm.num_variables)) t kwargs] ∧
      ((S.sample_bqm (S.upload_bqm (BQMPayload.unlabelled bqm.num_variables))
            t kwargs).vars = (List.range bqm.num_variables).map Lbl.idx →
        (LeapHybridSampler.sample S bqm (TimeLimitArg.num t) kwargs).1.map
            SampleSet.vars =
          Except.ok (bqm.vars.map Lbl.name))) := by
  have hnl : ¬ t < LeapHybridSampler.minTimeLimit S bqm := not_lt.2 hmin
  constructor
  · intro hsmall
    have hbig : ¬ bqm.num_variables > LeapHybridSampler.SIZE_THRESHOLD :=
      not_lt.2 hsmall
    unfold LeapHybridSampler.sample
    simp [hnl, hbig, LeapHybridSampler.sampleSmall]
  · intro hbig
    constructor
    · unfold LeapHybridSampler.sample
      simp [hnl, hbig, LeapHybridSampler.sampleLarge]
    · intro hvars
      unfold LeapHybridSampler.sample
      simp [hnl, hbig, LeapHybridSampler.sampleLarge, Except.map,
        SampleSet.relabel_variables, hvars]
      have := relabel_range_map bqm.vars
      simpa [BQM.num_variables] using this

/-- Witness for claim C5: a 10001-variable model takes the unlabelled path
and, with the remote oracle answering with the index labels 0..10000, the
returned sample set carries exactly the models labels. -/
theorem claim_C5_witness :
    LeapHybridSampler.SIZE_THRESHOLD < bqmLarge.num_variables ∧
    (LeapHybridSampler.sample solverLarge bqmLarge (TimeLimitArg.num 30)
        []).1.map SampleSet.vars =
      Except.ok (bqmLarge.vars.map Lbl.name) := by
  have hlen : bqmLarge.num_variables = 10001 := List.length_replicate 10001 "x"
  have hbig : LeapHybridSampler.SIZE_THRESHOLD < bqmLarge.num_variables := by
    rw [hlen]
    decide
  have hmin : LeapHybridSampler.minTimeLimit solverLarge bqmLarge ≤ 30 := by
    rw [minTime_solverLarge_bqmLarge]
    decide
  refine ⟨hbig, ?_⟩
  refine ((claim_C5_serialization_paths solverLarge bqmLarge 30 [] hmin).2
    hbig).2 ?_
  rw [hlen]
  have h1 : solverLarge.sample_bqm
      (solverLarge.upload_bqm (BQMPayload.unlabelled 10001)) 30 [] =
      ⟨(List.range 10001).map Lbl.idx, []⟩ := rfl
  rw [h1]

/-- Claim C7: the shared constructor rejects a caller-supplied category
other than hybrid and a caller-supplied problem type other than the
adapters kind; when the filter checks pass, the three defaults are
injected only for keys the caller did not supply, and the construction
succeeds exactly when the resolved solver is a hybrid solver supporting
the adapters kind, failing with a configuration error otherwise. -/
theorem claim_C7_constructor_checks (kind : String) (m : FilterMap)
    (resolved : Solver) :
    (∀ c, lookupS "category" m = some c → c ≠ "hybrid" →
      (samplerInit kind (SolverArg.filter m) resolved).1 =
        Except.error (SampleError.valueError
          "the only category this sampler supports is hybrid")) ∧
    (∀ p2, (lookupS "category" m = none ∨ lookupS "category" m = some "hybrid") →
      lookupS "supported_problem_types__contains" m = some p2 → p2 ≠ kind →
      (samplerInit kind (SolverArg.filter m) resolved).1 =
        Except.error (SampleError.valueError
          ("the only problem type this sampler supports is " ++ kind))) ∧
    (filterOk kind m →
      (lookupS "category" (applyFilterDefaults kind m).2 =
          some ((lookupS "category" m).getD "hybrid") ∧
       lookupS "supported_problem_types__contains" (applyFilterDefaults kind m).2 =
          some ((lookupS "supported_problem_types__contains" m).getD kind) ∧
       lookupS "order_by" (applyFilterDefaults kind m).2 =
          some ((lookupS "order_by" m).getD "-version")) ∧
      ((samplerInit kind (SolverArg.filter m) resolved).1 = Except.ok resolved ↔
        (resolved.properties.category = some "hybrid" ∧
         kind ∈ resolved.supported_problem_types)) ∧
      (resolved.properties.category ≠ some "hybrid" →
        (samplerInit kind (SolverArg.filter m) resolved).1 =
          Except.error (SampleError.valueError
            "selected solver is not a hybrid solver")) ∧
      (resolved.properties.category = some "hybrid" →
        kind ∉ resolved.supported_problem_types →
        (samplerInit kind (SolverArg.filter m) resolved).1 =
          Except.error (SampleError.valueError
            ("selected solver does not support the " ++ kind ++ " problem type")))) := by
  refine ⟨?_, ?_, ?_⟩
  · intro c h hc
    have hbad := applyFilterDefaults_bad_category kind m c h hc
    have h1 : (applyFilterDefaults kind m).1 =
        Except.error (SampleError.valueError
          "the only category this sampler supports is hybrid") := by
      rw [hbad]
    rw [samplerInit_filter_error kind m resolved _ h1]
  · intro p2 hcat h hp
    have h1 := applyFilterDefaults_bad_pt kind m p2 hcat h hp
    rw [samplerInit_filter_error kind m resolved _ h1]
  · intro hok
    obtain ⟨hok1, hl1, hl2, hl3⟩ := applyFilterDefaults_ok kind m hok
    rw [samplerInit_filter_ok kind m resolved hok1]
    refine ⟨⟨hl1, hl2, hl3⟩, validateResolved_ok_iff kind resolved, ?_, ?_⟩
    · intro hbad
      exact validateResolved_bad_category kind resolved hbad
    · intro hcat hpt
      exact validateResolved_bad_pt kind resolved hcat hpt

/-- Witness for claim C7: a caller who only pins the ordering keeps that
value, gains the category and problem-type defaults, and resolution
against a hybrid BQM solver succeeds. -/
theorem claim_C7_witness :
    filterOk "bqm" [("order_by", "id")] ∧
    (samplerInit "bqm" (SolverArg.filter [("order_by", "id")]) solver0).1 =
      Except.ok solver0 ∧
    lookupS "order_by" (applyFilterDefaults "bqm" [("order_by", "id")]).2 =
      some "id" ∧
    lookupS "category" (applyFilterDefaults "bqm" [("order_by", "id")]).2 =
      some "hybrid" := by
  have hok : filterOk "bqm" [("order_by", "id")] := by
    constructor <;> simp [lookupS]
  obtain ⟨hlooks, hiff, _, _⟩ :=
    (claim_C7_constructor_checks "bqm" [("order_by", "id")] solver0).2.2 hok
  refine ⟨hok, hiff.mpr ⟨rfl, by simp [solver0]⟩, ?_, ?_⟩
  · have := hlooks.2.2
    simpa [lookupS] using this
  · have := hlooks.1
    simpa [lookupS] using this

/-- Claim C8: the properties and parameters attributes are cached: after a
first access, a second access returns the same value and the same state
without consulting the solver again; on a fresh cache the properties value
is the bound solvers property mapping and the parameters value maps each
accepted keyword to the provenance list. -/
theorem claim_C8_cached_attrs (s : AdapterState) :
    ((s.getProperties.state).getProperties =
        ⟨s.getProperties.value, s.getProperties.state, false⟩) ∧
    ((s.getParameters.state).getParameters =
        ⟨s.getParameters.value, s.getParameters.state, false⟩) ∧
    (s.propsCache = none →
      s.getProperties.value = s.solver.properties ∧
      s.getProperties.fetched = true) ∧
    (s.paramsCache = none → s.propsCache = none →
      s.getParameters.value = paramsFrom s.solver.properties) := by
  refine ⟨?_, ?_, ?_, ?_⟩
  · cases h : s.propsCache <;>
      simp [AdapterState.getProperties, h]
  · cases h : s.paramsCache <;> cases h2 : s.propsCache <;>
      simp [AdapterState.getParameters, AdapterState.getProperties, h, h2]
  · intro h
    simp [AdapterState.getProperties, h]
  · intro h h2
    simp [AdapterState.getParameters, AdapterState.getProperties, h, h2]

/-- Witness for claim C8 at a freshly constructed adapter bound to the
documentation solver. -/
theorem claim_C8_witness :
    adapter0.propsCache = none ∧
    adapter0.getProperties.value = adapter0.solver.properties ∧
    (adapter0.getParameters.state).getParameters =
      ⟨adapter0.getParameters.value, adapter0.getParameters.state, false⟩ := by
  have h := claim_C8_cached_attrs adapter0
  exact ⟨rfl, (h.2.2.1 rfl).1, h.2.1⟩

/-- Counterexample to claim C10: with the caller-owned mapping binding
category to qpu, the constructor raises the category conflict error before
the later setdefault calls run, so the mapping observable to the caller
still lacks the order_by key (and the problem-type key) the claim says it
gains. -/
theorem claim_C10_counterexample :
    (samplerInit "bqm" (SolverArg.filter [("category", "qpu")]) solver0).1 =
      Except.error (SampleError.valueError
        "the only category this sampler supports is hybrid") ∧
    (samplerInit "bqm" (SolverArg.filter [("category", "qpu")]) solver0).2 =
      some [("category", "qpu")] ∧
    lookupS "order_by" [("category", "qpu")] = none ∧
    lookupS "supported_problem_types__contains" [("category", "qpu")] = none := by
  have hbad := applyFilterDefaults_bad_category "bqm" [("category", "qpu")]
    "qpu" (by simp [lookupS]) (by simp)
  have h1 : (applyFilterDefaults "bqm" [("category", "qpu")]).1 =
      Except.error (SampleError.valueError
        "the only category this sampler supports is hybrid") := by
    rw [hbad]
  rw [samplerInit_filter_error "bqm" [("category", "qpu")] solver0 _ h1, hbad]
  refine ⟨rfl, rfl, by simp [lookupS], by simp [lookupS]⟩

/-- Claim C10 as amended: the constructor does mutate a caller-passed
mapping in place, and the final contents are observable through the
callers reference on every path; when the filter checks pass (whether or
not the post-resolution validation then fails) the mapping contains all
three injected keys, with defaults only for keys the caller had not set;
but when a filter conflict error is raised only the setdefault calls
executed before the failing check are visible, so a category conflict
leaves the mapping exactly as the caller supplied it. -/
theorem claim_C10_filter_mutation (kind : String) (m : FilterMap)
    (resolved : Solver) :
    (samplerInit kind (SolverArg.filter m) resolved).2 =
      some (applyFilterDefaults kind m).2 ∧
    (filterOk kind m →
      lookupS "category" (applyFilterDefaults kind m).2 =
        some ((lookupS "category" m).getD "hybrid") ∧
      lookupS "supported_problem_types__contains" (applyFilterDefaults kind m).2 =
        some ((lookupS "supported_problem_types__contains" m).getD kind) ∧
      lookupS "order_by" (applyFilterDefaults kind m).2 =
        some ((lookupS "order_by" m).getD "-version")) ∧
    (∀ c, lookupS "category" m = some c → c ≠ "hybrid" →
      (applyFilterDefaults kind m).2 = m) := by
  refine ⟨?_, ?_, ?_⟩
  · cases h : (applyFilterDefaults kind m).1 with
    | error e => rw [samplerInit_filter_error kind m resolved e h]
    | ok u =>
        cases u
        rw [samplerInit_filter_ok kind m resolved h]
  · intro hok
    exact (applyFilterDefaults_ok kind m hok).2
  · intro c h hc
    have hbad := applyFilterDefaults_bad_category kind m c h hc
    rw [hbad]

/-- Witness for the amended claim C10: a caller mapping that only pins the
ordering is observably extended with the category and problem-type
defaults while keeping the callers ordering value. -/
theorem claim_C10_witness :
    (samplerInit "dqm" (SolverArg.filter [("order_by", "id")]) solver0).2 =
      some (applyFilterDefaults "dqm" [("order_by", "id")]).2 ∧
    lookupS "category" (applyFilterDefaults "dqm" [("order_by", "id")]).2 =
      some "hybrid" ∧
    lookupS "order_by" (applyFilterDefaults "dqm" [("order_by", "id")]).2 =
      some "id" := by
  have h := claim_C10_filter_mutation "dqm" [("order_by", "id")] solver0
  have hok : filterOk "dqm" [("order_by", "id")] := by
    constructor <;> simp [lookupS]
  obtain ⟨h1, h2, h3⟩ := h.2.1 hok
  refine ⟨h.1, ?_, ?_⟩
  · simpa [lookupS] using h1
  · simpa [lookupS] using h3
